import Mathlib

/-!
Shallow embedding of the PDF question-answering service in
`src/rag-service/main.py` (FastAPI app with /upload, /ask and /summarize
endpoints over a FAISS vector store and a HuggingFace generation model).

External libraries (PyPDFLoader, RecursiveCharacterTextSplitter, FAISS
similarity search, the tokenizer and the generation model) are modelled as
oracle functions collected in environment structures; the repository code
that configures and sequences them is translated faithfully.
-/

namespace PDFQABot

/-! ### Python whitespace primitives

`re.sub` with the pattern matching runs of two or more whitespace
characters, and `str.strip`, are used by the service to post-process
generated text.  Whitespace is modelled on the ASCII part of the Python
whitespace class: space, tab, newline, carriage return, vertical tab and
form feed. -/

/-- The ASCII whitespace characters recognised by Python regular
expression whitespace and by `str.strip`. -/
def py_isspace (c : Char) : Bool :=
  c == ' ' || c == '\t' || c == '\n' || c == '\r' || c == '\x0b' || c == '\x0c'

/-- Remove trailing whitespace characters from a character list. -/
def dropTrailingWs : List Char → List Char
  | [] => []
  | c :: rest =>
    let r := dropTrailingWs rest
    if r.isEmpty && py_isspace c then [] else c :: r

/-- Python `s.strip()`: remove leading and trailing whitespace. -/
def py_strip (s : String) : String :=
  ⟨dropTrailingWs (s.data.dropWhile py_isspace)⟩

/-- Scanner for the substitution that replaces every maximal run of two or
more whitespace characters by a single space.  The flag records whether the
current character continues a whitespace run that already had an earlier
character (in which case the run is emitted as one space when it ends). -/
def collapseWsAux : Bool → List Char → List Char
  | _, [] => []
  | inRun, c :: rest =>
    if py_isspace c then
      match rest with
      | [] => if inRun then [' '] else [c]
      | c2 :: _ =>
        if py_isspace c2 then collapseWsAux true rest
        else (if inRun then ' ' else c) :: collapseWsAux false rest
    else c :: collapseWsAux false rest

/-- Python `re.sub` of the pattern matching two-or-more whitespace runs
with a single space, as used on the /ask answer. -/
def re_sub_ws (s : String) : String :=
  ⟨collapseWsAux false s.data⟩

/-- `true` when the character list contains two consecutive whitespace
characters somewhere. -/
def hasDoubleWs : List Char → Bool
  | c1 :: c2 :: rest => (py_isspace c1 && py_isspace c2) || hasDoubleWs (c2 :: rest)
  | _ => false

/-! ### Data model: documents, vector store, HTTP -/

/-- A langchain document chunk; only its `page_content` is consumed by the
service. -/
structure Document where
  page_content : String
deriving Repr, DecidableEq

/-- The FAISS index, identified by the exact list of chunks it was built
from; similarity search over it is an environment oracle. -/
structure VectorStore where
  chunks : List Document
deriving Repr, DecidableEq

/-- `FAISS.from_documents(chunks, embedding_model)`: builds an index
holding exactly the given chunks. -/
def FAISS_from_documents (chunks : List Document) : VectorStore :=
  ⟨chunks⟩

/-- `fastapi.HTTPException(status_code=..., detail=...)`. -/
structure HTTPException where
  status_code : Nat
  detail : String
deriving Repr, DecidableEq

/-- An uploaded multipart file: its client-side filename and its bytes. -/
structure UploadFile where
  filename : String
  content : String
deriving Repr, DecidableEq

/-! ### Generation model environment and state -/

/-- The HuggingFace tokenizer oracle: encoding, decoding and the special
token ids the code reads. -/
structure Tokenizer where
  encode : String → List Nat
  decode : List Nat → String
  pad_token_id : Option Nat
  eos_token_id : Option Nat

/-- The generation model oracle: `model.generate` as a function of the
input ids, `max_new_tokens` and the pad token id passed by the code. -/
structure GenModel where
  generate : List Nat → Nat → Option Nat → List Nat

/-- `AutoConfig.from_pretrained(HF_GENERATION_MODEL)`: the only field the
code reads is `is_encoder_decoder`. -/
structure ModelConfig where
  is_encoder_decoder : Bool

/-- The fixed HuggingFace hub contents for `HF_GENERATION_MODEL`: its
config, its tokenizer, and the model under either loading head. -/
structure GenEnv where
  config : ModelConfig
  tokenizer : Tokenizer
  seq2seq_model : GenModel
  causal_model : GenModel

/-- The three generation globals of main.py: `generation_tokenizer`,
`generation_model` and `generation_is_encoder_decoder`. -/
structure GenState where
  generation_tokenizer : Option Tokenizer
  generation_model : Option GenModel
  generation_is_encoder_decoder : Bool

/-- The generation globals at process start: both `None`, flag `False`. -/
def initGenState : GenState :=
  ⟨none, none, false⟩

/-- States in which a stored model always comes with a stored tokenizer;
every state reachable from `initGenState` satisfies this. -/
def GenState.wf (g : GenState) : Bool :=
  !g.generation_model.isSome || g.generation_tokenizer.isSome

/-- `load_generation_model()`: returns the already-loaded triple when
`generation_model` is set, otherwise loads tokenizer and model per the
config flag and stores all three globals.  (The cuda move and `eval()`
do not change the modelled state.) -/
def load_generation_model (env : GenEnv) (s : GenState) :
    (Option Tokenizer × Option GenModel × Bool) × GenState :=
  match s.generation_model with
  | some m =>
    ((s.generation_tokenizer, some m, s.generation_is_encoder_decoder), s)
  | none =>
    let is_ed := env.config.is_encoder_decoder
    let tok := env.tokenizer
    let model := if is_ed then env.seq2seq_model else env.causal_model
    ((some tok, some model, is_ed),
     { generation_tokenizer := some tok
       generation_model := some model
       generation_is_encoder_decoder := is_ed })

/-- Python `a or b` on optional token ids: both `None` and `0` are falsy
in Python, so a pad id of `0` falls through to the eos id. -/
def py_or_id (a b : Option Nat) : Option Nat :=
  match a with
  | some n => if n = 0 then b else some n
  | none => b

/-- `generate_response(prompt, max_new_tokens)`: tokenize with truncation
to 2048, run `model.generate`, decode the whole sequence for an
encoder-decoder model or only the tokens after the input length for a
causal model, and strip the result.  Returns `none` when the stored
tokenizer is absent (the Python code would raise). -/
def generate_response (env : GenEnv) (s : GenState) (prompt : String)
    (max_new_tokens : Nat := 400) : Option (String × GenState) :=
  match load_generation_model env s with
  | ((some tokenizer, some model, is_encoder_decoder), s1) =>
    let input_ids := (tokenizer.encode prompt).take 2048
    let pad_token_id := py_or_id tokenizer.pad_token_id tokenizer.eos_token_id
    let generated_ids := model.generate input_ids max_new_tokens pad_token_id
    let text :=
      if is_encoder_decoder then
        tokenizer.decode generated_ids
      else
        tokenizer.decode (generated_ids.drop input_ids.length)
    some (py_strip text, s1)
  | ((_, _, _), _) => none

/-! ### Application environment, state and endpoints -/

/-- The external library oracles the endpoints call:
`PyPDFLoader(path).load()` on the written file bytes,
`RecursiveCharacterTextSplitter(800, 150).split_documents`, FAISS
`similarity_search` as a function of the stored chunks, and the
generation hub contents. -/
structure Env where
  pypdf_load : String → List Document
  split_documents : List Document → List Document
  similarity_search : List Document → String → Nat → List Document
  genEnv : GenEnv

/-- The global mutable state of main.py: the `vectorstore` global and the
generation globals. -/
structure AppState where
  vectorstore : Option VectorStore
  gen : GenState

/-- Process-start state: `vectorstore = None` and unloaded generation
globals. -/
def initAppState : AppState :=
  ⟨none, initGenState⟩

/-- Response body of a successful /upload. -/
structure UploadResponse where
  doc_id : String
deriving Repr, DecidableEq

/-- Request body of /ask after FastAPI model parsing. -/
structure AskRequest where
  question : String
deriving Repr, DecidableEq

/-- Response body of /ask. -/
structure AskResponse where
  answer : String
deriving Repr, DecidableEq

/-- Response body of /summarize. -/
structure SummaryResponse where
  summary : String
deriving Repr, DecidableEq

/-- The pydantic validator on `AskRequest.question`: reject a blank
question, otherwise replace it by its stripped form. -/
def validate_question (v : String) : Except String String :=
  if py_strip v = "" then .error "Question cannot be empty"
  else .ok (py_strip v)

/-- One call of `generate_response` made while handling a request,
recording the prompt and the `max_new_tokens` passed. -/
structure GenCall where
  prompt : String
  max_new_tokens : Nat
deriving Repr, DecidableEq

/-- Python `s.endswith(suffix)`. -/
def py_endswith (s suffix : String) : Bool :=
  suffix.data.isSuffixOf s.data

/-- `"\n\n".join(doc.page_content for doc in docs)`: page contents joined
with blank lines. -/
def join_context (docs : List Document) : String :=
  String.intercalate "\n\n" (docs.map (fun d => d.page_content))

/-- The /ask prompt f-string: instruction, then context, then question. -/
def ask_prompt (context query : String) : String :=
  "You are a helpful assistant answering ONLY from the context below.\n\n" ++
  "Context:\n" ++ context ++ "\n\n" ++
  "Question: " ++ query ++ "\nAnswer:"

/-- The /summarize prompt f-string around the context. -/
def summarize_prompt (context : String) : String :=
  "Summarize the document in 6-8 concise bullet points.\n\n" ++
  "Context:\n" ++ context ++ "\n\nSummary:"

/-- `/upload`: reject non-.pdf filenames with a 400, load and split the
written file, reject an empty chunk list with a 400, otherwise replace
the global `vectorstore` by an index over the new chunks.  The resulting
global state is returned alongside the response. -/
def upload_pdf (env : Env) (s : AppState) (file : UploadFile) :
    Except HTTPException UploadResponse × AppState :=
  if !py_endswith file.filename ".pdf" then
    (.error ⟨400, "Only PDF files are allowed."⟩, s)
  else
    let docs := env.pypdf_load file.content
    let chunks := env.split_documents docs
    if chunks.isEmpty then
      (.error ⟨400, "No text found in PDF."⟩, s)
    else
      (.ok ⟨file.filename⟩,
       { s with vectorstore := some (FAISS_from_documents chunks) })

/-- `/ask`: with no index, answer with a fixed message; otherwise retrieve
the 6 most similar chunks for the stripped question, and if any were
found, build the QA prompt, generate with `max_new_tokens=300`, collapse
whitespace runs and strip, and return the answer.  The third component
lists the generation calls made; `none` models an exception escaping the
handler. -/
def ask_question (env : Env) (s : AppState) (data : AskRequest) :
    Option (Except HTTPException AskResponse × AppState × List GenCall) :=
  match s.vectorstore with
  | none => some (.ok ⟨"Please upload a PDF first."⟩, s, [])
  | some vs =>
    let query := py_strip data.question
    let docs := env.similarity_search vs.chunks query 6
    if docs.isEmpty then
      some (.ok ⟨"Not found in document."⟩, s, [])
    else
      let context := join_context docs
      let prompt := ask_prompt context query
      match generate_response env.genEnv s.gen prompt 300 with
      | none => none
      | some (answer0, g1) =>
        let answer := py_strip (re_sub_ws answer0)
        some (.ok ⟨answer⟩, { s with gen := g1 }, [⟨prompt, 300⟩])

/-- `/summarize`: with no index, answer with a fixed message; otherwise
retrieve 8 chunks for the fixed query, build the summarization prompt and
return the generated text unchanged, with `max_new_tokens=350`. -/
def summarize_pdf (env : Env) (s : AppState) :
    Option (Except HTTPException SummaryResponse × AppState × List GenCall) :=
  match s.vectorstore with
  | none => some (.ok ⟨"Please upload a PDF first."⟩, s, [])
  | some vs =>
    let docs := env.similarity_search vs.chunks "Summarize the document" 8
    let context := join_context docs
    let prompt := summarize_prompt context
    match generate_response env.genEnv s.gen prompt 350 with
    | none => none
    | some (summary, g1) =>
      some (.ok ⟨summary⟩, { s with gen := g1 }, [⟨prompt, 350⟩])

/-! ### Request traces -/

/-- One incoming HTTP request to the service. -/
inductive Request where
  | upload (file : UploadFile)
  | ask (data : AskRequest)
  | summarize
deriving Repr

/-- The global state after handling one request (an escaped exception
leaves the globals as they were). -/
def stepState (env : Env) (s : AppState) (r : Request) : AppState :=
  match r with
  | .upload f => (upload_pdf env s f).2
  | .ask d =>
    match ask_question env s d with
    | some (_, s1, _) => s1
    | none => s
  | .summarize =>
    match summarize_pdf env s with
    | some (_, s1, _) => s1
    | none => s

/-- The global state after handling a list of requests in order. -/
def runRequests (env : Env) (s : AppState) : List Request → AppState
  | [] => s
  | r :: rs => runRequests env (stepState env s r) rs

/-- `true` when the request is an /upload that succeeds in state `s`. -/
def uploadSucceeded (env : Env) (s : AppState) (r : Request) : Bool :=
  match r with
  | .upload f =>
    match (upload_pdf env s f).1 with
    | .ok _ => true
    | .error _ => false
  | _ => false

/-- `true` when no request of the list is a successful /upload, tracking
the state each request runs in. -/
def noSuccessfulUpload (env : Env) : AppState → List Request → Bool
  | _, [] => true
  | s, r :: rs =>
    !uploadSucceeded env s r && noSuccessfulUpload env (stepState env s r) rs

/-! ### Concrete sample environments

Small executable instantiations of the oracles, used to evaluate the
embedded endpoints on closed inputs. -/

/-- A sample tokenizer: every prompt encodes to one token, every id list
decodes to a fixed word, pad id 0 (falsy in Python) and eos id 2. -/
def sampleTokenizer : Tokenizer :=
  ⟨fun _ => [1], fun _ => "hello", some 0, some 2⟩

/-- A sample model that appends one generated token to its input. -/
def sampleModel : GenModel :=
  ⟨fun ids _ _ => ids ++ [5]⟩

/-- A sample causal-architecture hub entry. -/
def sampleGenEnv : GenEnv :=
  ⟨⟨false⟩, sampleTokenizer, sampleModel, sampleModel⟩

/-- A sample encoder-decoder hub entry. -/
def sampleGenEnvED : GenEnv :=
  ⟨⟨true⟩, sampleTokenizer, sampleModel, sampleModel⟩

/-- A sample service environment: every PDF loads to one document, the
splitter is the identity, similarity search returns all stored chunks. -/
def sampleEnv : Env :=
  ⟨fun _ => [⟨"doc text"⟩], fun ds => ds, fun chunks _ _ => chunks, sampleGenEnv⟩

/-- A service environment whose splitter produces no chunks. -/
def sampleEnvNoChunks : Env :=
  ⟨fun _ => [⟨"doc text"⟩], fun _ => [], fun chunks _ _ => chunks, sampleGenEnv⟩

/-- A service environment whose similarity search finds nothing. -/
def sampleEnvNoHits : Env :=
  ⟨fun _ => [⟨"doc text"⟩], fun ds => ds, fun _ _ _ => [], sampleGenEnv⟩

/-- A state holding an index over one chunk, generation not yet loaded. -/
def sampleIndexedState : AppState :=
  ⟨some ⟨[⟨"doc text"⟩]⟩, initGenState⟩

/-- A tokenizer whose decoded output contains an internal double space. -/
def doubleSpaceTokenizer : Tokenizer :=
  ⟨fun _ => [1], fun _ => "a  b", none, some 2⟩

/-- A hub entry whose model output decodes with a double space. -/
def doubleSpaceGenEnv : GenEnv :=
  ⟨⟨false⟩, doubleSpaceTokenizer, sampleModel, sampleModel⟩

/-- A service environment around `doubleSpaceGenEnv`. -/
def doubleSpaceEnv : Env :=
  ⟨fun _ => [⟨"c"⟩], fun ds => ds, fun chunks _ _ => chunks, doubleSpaceGenEnv⟩

/-- A state holding an index over the single chunk of `doubleSpaceEnv`. -/
def doubleSpaceState : AppState :=
  ⟨some ⟨[⟨"c"⟩]⟩, initGenState⟩

/-- A sample request trace containing no successful upload: two reads and
one upload rejected for its filename. -/
def sampleTrace : List Request :=
  [.ask ⟨"q"⟩, .summarize, .upload ⟨"a.txt", "x"⟩]

/-! ### Whitespace lemmas

Facts about the modelled `re.sub` and `str.strip`, used for the claim
about normalization of /ask answers. -/

theorem hasDoubleWs_tail {c : Char} {l : List Char}
    (h : hasDoubleWs (c :: l) = false) : hasDoubleWs l = false := by
  cases l with
  | nil => rfl
  | cons c2 r =>
    rw [hasDoubleWs, Bool.or_eq_false_iff] at h
    exact h.2

theorem collapseWsAux_cons_not_ws (b : Bool) (c : Char) (l : List Char)
    (hc : py_isspace c = false) :
    collapseWsAux b (c :: l) = c :: collapseWsAux false l := by
  cases l with
  | nil => simp [collapseWsAux, hc]
  | cons c2 r => simp [collapseWsAux, hc]

theorem hasDoubleWs_collapseWsAux (l : List Char) :
    ∀ b, hasDoubleWs (collapseWsAux b l) = false := by
  induction l with
  | nil => intro b; rfl
  | cons c rest ih =>
    intro b
    by_cases hc : py_isspace c = true
    · cases rest with
      | nil =>
        cases b <;> simp [collapseWsAux, hc, hasDoubleWs]
      | cons c2 r2 =>
        by_cases h2 : py_isspace c2 = true
        · simpa [collapseWsAux, hc, h2] using ih true
        · rw [Bool.not_eq_true] at h2
          have hrw : collapseWsAux b (c :: c2 :: r2) =
              (if b then ' ' else c) :: collapseWsAux false (c2 :: r2) := by
            simp [collapseWsAux, hc, h2]
          rw [hrw, collapseWsAux_cons_not_ws false c2 r2 h2, hasDoubleWs,
            Bool.or_eq_false_iff]
          refine ⟨by simp [h2], ?_⟩
          rw [← collapseWsAux_cons_not_ws false c2 r2 h2]
          exact ih false
    · rw [Bool.not_eq_true] at hc
      rw [collapseWsAux_cons_not_ws b c rest hc]
      cases hrec : collapseWsAux false rest with
      | nil => rfl
      | cons d t =>
        rw [hasDoubleWs, Bool.or_eq_false_iff]
        exact ⟨by simp [hc], by rw [← hrec]; exact ih false⟩

theorem hasDoubleWs_dropWhile (l : List Char)
    (h : hasDoubleWs l = false) :
    hasDoubleWs (l.dropWhile py_isspace) = false := by
  induction l with
  | nil => rfl
  | cons c rest ih =>
    rw [List.dropWhile_cons]
    by_cases hc : py_isspace c = true
    · simp only [hc, if_true]
      exact ih (hasDoubleWs_tail h)
    · simp only [hc, if_false]
      exact h

theorem head?_dropWhile_ws (l : List Char) (d : Char)
    (h : (l.dropWhile py_isspace).head? = some d) : py_isspace d = false := by
  induction l with
  | nil => simp at h
  | cons c rest ih =>
    rw [List.dropWhile_cons] at h
    by_cases hc : py_isspace c = true
    · rw [if_pos hc] at h
      exact ih h
    · rw [if_neg hc, List.head?_cons, Option.some.injEq] at h
      rw [← h]
      exact Bool.not_eq_true _ |>.mp hc

theorem dropTrailingWs_shape (c : Char) (l : List Char) :
    dropTrailingWs (c :: l) = [] ∨
      dropTrailingWs (c :: l) = c :: dropTrailingWs l := by
  rw [dropTrailingWs]
  by_cases h : ((dropTrailingWs l).isEmpty && py_isspace c) = true
  · left; simp [h]
  · right; simp [h]

theorem dropTrailingWs_head (l : List Char) (d : Char) (t : List Char)
    (h : dropTrailingWs l = d :: t) : l.head? = some d := by
  cases l with
  | nil => simp [dropTrailingWs] at h
  | cons c rest =>
    rcases dropTrailingWs_shape c rest with hs | hs
    · rw [hs] at h; exact absurd h (by simp)
    · rw [hs] at h
      injection h with h1 h2
      rw [List.head?_cons, h1]

theorem hasDoubleWs_dropTrailingWs (l : List Char)
    (h : hasDoubleWs l = false) :
    hasDoubleWs (dropTrailingWs l) = false := by
  induction l with
  | nil => rfl
  | cons c rest ih =>
    have ih2 := ih (hasDoubleWs_tail h)
    rcases dropTrailingWs_shape c rest with hs | hs
    · rw [hs]; rfl
    · rw [hs]
      cases hrec : dropTrailingWs rest with
      | nil => rfl
      | cons d t =>
        rw [hasDoubleWs, Bool.or_eq_false_iff]
        constructor
        · have hd : rest.head? = some d := dropTrailingWs_head rest d t hrec
          cases rest with
          | nil => simp at hd
          | cons c2 r2 =>
            rw [List.head?_cons, Option.some.injEq] at hd
            rw [hasDoubleWs, Bool.or_eq_false_iff] at h
            rw [← hd]
            exact h.1
        · rw [← hrec]; exact ih2

theorem getLast?_dropTrailingWs (l : List Char) (d : Char)
    (h : (dropTrailingWs l).getLast? = some d) : py_isspace d = false := by
  induction l with
  | nil => simp [dropTrailingWs] at h
  | cons c rest ih =>
    simp only [dropTrailingWs] at h
    by_cases hcond : ((dropTrailingWs rest).isEmpty && py_isspace c) = true
    · rw [if_pos hcond] at h
      simp at h
    · rw [if_neg hcond] at h
      cases hrec : dropTrailingWs rest with
      | nil =>
        rw [hrec] at h
        rw [show ([c].getLast? : Option Char) = some c from rfl,
          Option.some.injEq] at h
        rw [hrec] at hcond
        simp only [List.isEmpty_nil, Bool.true_and] at hcond
        rw [← h]
        exact Bool.not_eq_true _ |>.mp hcond
      | cons e t =>
        rw [hrec, List.getLast?_cons_cons] at h
        rw [← hrec] at h
        exact ih h

/-- The /ask post-processing: after collapsing whitespace runs and
stripping, the text has no two consecutive whitespace characters and no
leading or trailing whitespace. -/
theorem py_strip_re_sub_ws_normalized (s : String) :
    hasDoubleWs (py_strip (re_sub_ws s)).data = false ∧
    (∀ d, (py_strip (re_sub_ws s)).data.head? = some d → py_isspace d = false) ∧
    (∀ d, (py_strip (re_sub_ws s)).data.getLast? = some d → py_isspace d = false) := by
  have hdata : (py_strip (re_sub_ws s)).data =
      dropTrailingWs ((collapseWsAux false s.data).dropWhile py_isspace) := rfl
  refine ⟨?_, ?_, ?_⟩
  · rw [hdata]
    exact hasDoubleWs_dropTrailingWs _
      (hasDoubleWs_dropWhile _ (hasDoubleWs_collapseWsAux s.data false))
  · intro d hd
    rw [hdata] at hd
    cases hl : dropTrailingWs ((collapseWsAux false s.data).dropWhile py_isspace) with
    | nil => rw [hl] at hd; simp at hd
    | cons e t =>
      rw [hl, List.head?_cons, Option.some.injEq] at hd
      have he := dropTrailingWs_head _ e t hl
      exact hd ▸ head?_dropWhile_ws _ e he
  · intro d hd
    rw [hdata] at hd
    exact getLast?_dropTrailingWs _ d hd

/-! ### Service-level helper lemmas -/

theorem load_generation_model_some (env : GenEnv) (g : GenState)
    (hwf : g.wf = true) :
    ∃ tok model is_ed g1,
      load_generation_model env g = ((some tok, some model, is_ed), g1) := by
  cases hm : g.generation_model with
  | none =>
    refine ⟨env.tokenizer,
      if env.config.is_encoder_decoder then env.seq2seq_model else env.causal_model,
      env.config.is_encoder_decoder,
      ⟨some env.tokenizer,
       some (if env.config.is_encoder_decoder then env.seq2seq_model
         else env.causal_model),
       env.config.is_encoder_decoder⟩, ?_⟩
    simp [load_generation_model, hm]
  | some m =>
    rw [GenState.wf, hm] at hwf
    cases ht : g.generation_tokenizer with
    | none => rw [ht] at hwf; simp at hwf
    | some tok =>
      exact ⟨tok, m, g.generation_is_encoder_decoder, g,
        by simp [load_generation_model, hm, ht]⟩

theorem generate_response_eq (env : GenEnv) (g : GenState) (prompt : String)
    (mnt : Nat) (tok : Tokenizer) (model : GenModel) (is_ed : Bool)
    (g1 : GenState)
    (hload : load_generation_model env g = ((some tok, some model, is_ed), g1)) :
    generate_response env g prompt mnt =
      some (py_strip (
        if is_ed then
          tok.decode (model.generate ((tok.encode prompt).take 2048) mnt
            (py_or_id tok.pad_token_id tok.eos_token_id))
        else
          tok.decode ((model.generate ((tok.encode prompt).take 2048) mnt
            (py_or_id tok.pad_token_id tok.eos_token_id)).drop
              ((tok.encode prompt).take 2048).length)), g1) := by
  simp only [generate_response, hload]

theorem generate_response_some (env : GenEnv) (g : GenState) (prompt : String)
    (mnt : Nat) (hwf : g.wf = true) :
    ∃ out g1, generate_response env g prompt mnt = some (out, g1) := by
  obtain ⟨tok, model, is_ed, g1, hload⟩ := load_generation_model_some env g hwf
  exact ⟨_, g1, generate_response_eq env g prompt mnt tok model is_ed g1 hload⟩

theorem upload_pdf_eq (env : Env) (s : AppState) (file : UploadFile) :
    (py_endswith file.filename ".pdf" = false ∧
      upload_pdf env s file = (.error ⟨400, "Only PDF files are allowed."⟩, s)) ∨
    (py_endswith file.filename ".pdf" = true ∧
      (env.split_documents (env.pypdf_load file.content)).isEmpty = true ∧
      upload_pdf env s file = (.error ⟨400, "No text found in PDF."⟩, s)) ∨
    (py_endswith file.filename ".pdf" = true ∧
      (env.split_documents (env.pypdf_load file.content)).isEmpty = false ∧
      upload_pdf env s file = (.ok ⟨file.filename⟩,
        { s with vectorstore := some (FAISS_from_documents
            (env.split_documents (env.pypdf_load file.content))) })) := by
  by_cases h1 : py_endswith file.filename ".pdf" = true
  · by_cases h2 : (env.split_documents (env.pypdf_load file.content)).isEmpty = true
    · exact Or.inr (Or.inl ⟨h1, h2, by simp [upload_pdf, h1, h2]⟩)
    · refine Or.inr (Or.inr ⟨h1, by simpa using h2, ?_⟩)
      simp [upload_pdf, h1, h2]
  · refine Or.inl ⟨by simpa using h1, ?_⟩
    simp [upload_pdf, h1]

theorem ask_question_vectorstore (env : Env) (s : AppState) (d : AskRequest)
    (r : Except HTTPException AskResponse) (s1 : AppState)
    (calls : List GenCall)
    (h : ask_question env s d = some (r, s1, calls)) :
    s1.vectorstore = s.vectorstore := by
  simp only [ask_question] at h
  split at h
  · simp at h
    rw [← h.2.1]
  · split at h
    · simp at h
      rw [← h.2.1]
    · split at h
      · exact absurd h (by simp)
      · simp at h
        rw [← h.2.1]

theorem summarize_pdf_vectorstore (env : Env) (s : AppState)
    (r : Except HTTPException SummaryResponse) (s1 : AppState)
    (calls : List GenCall)
    (h : summarize_pdf env s = some (r, s1, calls)) :
    s1.vectorstore = s.vectorstore := by
  simp only [summarize_pdf] at h
  split at h
  · simp at h
    rw [← h.2.1]
  · split at h
    · exact absurd h (by simp)
    · simp at h
      rw [← h.2.1]

theorem stepState_ask_vectorstore (env : Env) (s : AppState) (d : AskRequest) :
    (stepState env s (.ask d)).vectorstore = s.vectorstore := by
  rw [stepState]
  cases h : ask_question env s d with
  | none => rfl
  | some v =>
    exact ask_question_vectorstore env s d v.1 v.2.1 v.2.2 (by rw [h])

theorem stepState_summarize_vectorstore (env : Env) (s : AppState) :
    (stepState env s .summarize).vectorstore = s.vectorstore := by
  rw [stepState]
  cases h : summarize_pdf env s with
  | none => rfl
  | some v =>
    exact summarize_pdf_vectorstore env s v.1 v.2.1 v.2.2 (by rw [h])

theorem runRequests_vectorstore_none (env : Env) (rs : List Request) :
    ∀ s : AppState, s.vectorstore = none →
      noSuccessfulUpload env s rs = true →
      (runRequests env s rs).vectorstore = none := by
  induction rs with
  | nil => intro s hs _; exact hs
  | cons r rest ih =>
    intro s hs hno
    rw [noSuccessfulUpload, Bool.and_eq_true] at hno
    refine ih (stepState env s r) ?_ hno.2
    cases r with
    | upload f =>
      have hfail := hno.1
      rw [stepState]
      rcases upload_pdf_eq env s f with ⟨_, he⟩ | ⟨_, _, he⟩ | ⟨_, _, he⟩
      · rw [he]; exact hs
      · rw [he]; exact hs
      · exfalso
        rw [uploadSucceeded, he] at hfail
        simp at hfail
    | ask d => rw [stepState_ask_vectorstore]; exact hs
    | summarize => rw [stepState_summarize_vectorstore]; exact hs

/-! ### Claims -/

/-- C2: in `generate_response`, decoding branches on the architecture
flag returned by `load_generation_model`: for an encoder-decoder model
the entire generated token sequence is decoded, for a causal model only
the generated tokens after the input length are decoded. -/
theorem C2_generate_decoding (env : GenEnv) (g : GenState) (prompt : String)
    (mnt : Nat) (hwf : g.wf = true) :
    ∃ tok model is_ed g1,
      load_generation_model env g = ((some tok, some model, is_ed), g1) ∧
      (is_ed = true →
        generate_response env g prompt mnt =
          some (py_strip (tok.decode
            (model.generate ((tok.encode prompt).take 2048) mnt
              (py_or_id tok.pad_token_id tok.eos_token_id))), g1)) ∧
      (is_ed = false →
        generate_response env g prompt mnt =
          some (py_strip (tok.decode
            ((model.generate ((tok.encode prompt).take 2048) mnt
              (py_or_id tok.pad_token_id tok.eos_token_id)).drop
                ((tok.encode prompt).take 2048).length)), g1)) := by
  obtain ⟨tok, model, is_ed, g1, hload⟩ := load_generation_model_some env g hwf
  refine ⟨tok, model, is_ed, g1, hload, ?_, ?_⟩
  · intro hed
    rw [generate_response_eq env g prompt mnt tok model is_ed g1 hload, hed,
      if_pos rfl]
  · intro hed
    rw [generate_response_eq env g prompt mnt tok model is_ed g1 hload, hed,
      if_neg (by simp)]

theorem C2_witness :
    initGenState.wf = true ∧
    ∃ tok model is_ed g1,
      load_generation_model sampleGenEnv initGenState =
        ((some tok, some model, is_ed), g1) ∧
      (is_ed = true →
        generate_response sampleGenEnv initGenState "hi" 7 =
          some (py_strip (tok.decode
            (model.generate ((tok.encode "hi").take 2048) 7
              (py_or_id tok.pad_token_id tok.eos_token_id))), g1)) ∧
      (is_ed = false →
        generate_response sampleGenEnv initGenState "hi" 7 =
          some (py_strip (tok.decode
            ((model.generate ((tok.encode "hi").take 2048) 7
              (py_or_id tok.pad_token_id tok.eos_token_id)).drop
                ((tok.encode "hi").take 2048).length)), g1)) :=
  ⟨rfl, C2_generate_decoding sampleGenEnv initGenState "hi" 7 rfl⟩

/-- C3: a successful /upload replaces the global vectorstore by an index
built solely from the chunks of the newly uploaded PDF, whatever the
previous index was; every chunk of the resulting index comes from the new
upload. -/
theorem C3_upload_overwrites (env : Env) (s : AppState) (file : UploadFile)
    (resp : UploadResponse) (s1 : AppState)
    (h : upload_pdf env s file = (.ok resp, s1)) :
    s1.vectorstore = some (FAISS_from_documents
      (env.split_documents (env.pypdf_load file.content))) ∧
    ∀ vs : VectorStore, s1.vectorstore = some vs →
      ∀ d : Document, d ∈ vs.chunks →
        d ∈ env.split_documents (env.pypdf_load file.content) := by
  rcases upload_pdf_eq env s file with ⟨_, he⟩ | ⟨_, _, he⟩ | ⟨_, _, he⟩
  · rw [he] at h; exact absurd h (by simp)
  · rw [he] at h; exact absurd h (by simp)
  · rw [he] at h
    have hs1 : s1 = { s with vectorstore := some (FAISS_from_documents
        (env.split_documents (env.pypdf_load file.content))) } := by
      have := congrArg Prod.snd h
      exact this.symm
    constructor
    · rw [hs1]
    · intro vs hvs d hd
      rw [hs1] at hvs
      simp only [Option.some.injEq] at hvs
      rw [← hvs] at hd
      exact hd

theorem C3_witness :
    upload_pdf sampleEnv sampleIndexedState ⟨"new.pdf", "bytes"⟩ =
      (.ok ⟨"new.pdf"⟩, ⟨some ⟨[⟨"doc text"⟩]⟩, initGenState⟩) ∧
    (⟨some ⟨[⟨"doc text"⟩]⟩, initGenState⟩ : AppState).vectorstore =
      some (FAISS_from_documents
        (sampleEnv.split_documents (sampleEnv.pypdf_load "bytes"))) ∧
    ∀ vs : VectorStore,
      (⟨some ⟨[⟨"doc text"⟩]⟩, initGenState⟩ : AppState).vectorstore = some vs →
      ∀ d : Document, d ∈ vs.chunks →
        d ∈ sampleEnv.split_documents (sampleEnv.pypdf_load "bytes") := by
  have h := C3_upload_overwrites sampleEnv sampleIndexedState
    ⟨"new.pdf", "bytes"⟩ ⟨"new.pdf"⟩ ⟨some ⟨[⟨"doc text"⟩]⟩, initGenState⟩ rfl
  exact ⟨rfl, h.1, h.2⟩

/-- C5: generation-model loading is lazy and one-time: a first call on an
unloaded state loads tokenizer and model per the config flag and stores
them; a call on any loaded state returns the stored triple with the state
unchanged, so loading is idempotent on the global model state. -/
theorem C5_lazy_one_time_loading (env : GenEnv) (s : GenState)
    (h : s.generation_model = none) :
    (load_generation_model env s).1 =
      (some env.tokenizer,
       some (if env.config.is_encoder_decoder then env.seq2seq_model
         else env.causal_model),
       env.config.is_encoder_decoder) ∧
    (load_generation_model env s).2 =
      ⟨some env.tokenizer,
       some (if env.config.is_encoder_decoder then env.seq2seq_model
         else env.causal_model),
       env.config.is_encoder_decoder⟩ ∧
    (∀ (g : GenState) (m : GenModel), g.generation_model = some m →
      load_generation_model env g =
        ((g.generation_tokenizer, some m, g.generation_is_encoder_decoder), g)) ∧
    load_generation_model env (load_generation_model env s).2 =
      ((load_generation_model env s).1, (load_generation_model env s).2) := by
  refine ⟨by simp [load_generation_model, h], by simp [load_generation_model, h],
    ?_, ?_⟩
  · intro g m hg
    simp [load_generation_model, hg]
  · simp [load_generation_model, h]

theorem C5_witness :
    initGenState.generation_model = none ∧
    ((load_generation_model sampleGenEnv initGenState).1 =
      (some sampleGenEnv.tokenizer,
       some (if sampleGenEnv.config.is_encoder_decoder then
         sampleGenEnv.seq2seq_model else sampleGenEnv.causal_model),
       sampleGenEnv.config.is_encoder_decoder) ∧
    (load_generation_model sampleGenEnv initGenState).2 =
      ⟨some sampleGenEnv.tokenizer,
       some (if sampleGenEnv.config.is_encoder_decoder then
         sampleGenEnv.seq2seq_model else sampleGenEnv.causal_model),
       sampleGenEnv.config.is_encoder_decoder⟩ ∧
    (∀ (g : GenState) (m : GenModel), g.generation_model = some m →
      load_generation_model sampleGenEnv g =
        ((g.generation_tokenizer, some m, g.generation_is_encoder_decoder), g)) ∧
    load_generation_model sampleGenEnv (load_generation_model sampleGenEnv initGenState).2 =
      ((load_generation_model sampleGenEnv initGenState).1,
       (load_generation_model sampleGenEnv initGenState).2)) :=
  ⟨rfl, C5_lazy_one_time_loading sampleGenEnv initGenState rfl⟩

/-- C7: the index is memory-resident only: at process start the global
vectorstore is `None`, and it remains `None` under any request trace that
contains no successful /upload. -/
theorem C7_index_memory_resident :
    initAppState.vectorstore = none ∧
    ∀ (env : Env) (rs : List Request),
      noSuccessfulUpload env initAppState rs = true →
      (runRequests env initAppState rs).vectorstore = none :=
  ⟨rfl, fun env rs hno => runRequests_vectorstore_none env rs initAppState rfl hno⟩

theorem C7_witness :
    noSuccessfulUpload sampleEnv initAppState sampleTrace = true ∧
    (runRequests sampleEnv initAppState sampleTrace).vectorstore = none :=
  ⟨by decide, C7_index_memory_resident.2 sampleEnv sampleTrace (by decide)⟩

/-- C8: an /upload rejected with an HTTP error leaves the global state,
in particular the vectorstore, exactly as it was before the request. -/
theorem C8_upload_failure_atomic (env : Env) (s : AppState)
    (file : UploadFile) (e : HTTPException)
    (h : (upload_pdf env s file).1 = .error e) :
    (upload_pdf env s file).2 = s ∧
    ((upload_pdf env s file).2).vectorstore = s.vectorstore := by
  rcases upload_pdf_eq env s file with ⟨_, he⟩ | ⟨_, _, he⟩ | ⟨_, _, he⟩
  · rw [he]; exact ⟨rfl, rfl⟩
  · rw [he]; exact ⟨rfl, rfl⟩
  · rw [he] at h; exact absurd h (by simp)

theorem C8_witness :
    (upload_pdf sampleEnv sampleIndexedState ⟨"a.txt", "x"⟩).1 =
      .error ⟨400, "Only PDF files are allowed."⟩ ∧
    (upload_pdf sampleEnv sampleIndexedState ⟨"a.txt", "x"⟩).2 =
      sampleIndexedState ∧
    ((upload_pdf sampleEnv sampleIndexedState ⟨"a.txt", "x"⟩).2).vectorstore =
      sampleIndexedState.vectorstore :=
  ⟨rfl, (C8_upload_failure_atomic sampleEnv sampleIndexedState ⟨"a.txt", "x"⟩
    ⟨400, "Only PDF files are allowed."⟩ rfl).1,
   (C8_upload_failure_atomic sampleEnv sampleIndexedState ⟨"a.txt", "x"⟩
    ⟨400, "Only PDF files are allowed."⟩ rfl).2⟩

/-- C1 (counterexample to the claim as stated): with an index set and a
model whose decoded output is `"a  b"`, /ask returns `"a b"` — the
generation output with its double space collapsed — so the model output
itself is not what is returned as the answer. -/
theorem C1_counterexample :
    generate_response doubleSpaceEnv.genEnv doubleSpaceState.gen
      (ask_prompt "c" "q") 300 =
      some ("a  b", ⟨some doubleSpaceTokenizer, some sampleModel, false⟩) ∧
    ask_question doubleSpaceEnv doubleSpaceState ⟨"q"⟩ =
      some (.ok ⟨"a b"⟩,
        ⟨some ⟨[⟨"c"⟩]⟩, ⟨some doubleSpaceTokenizer, some sampleModel, false⟩⟩,
        [⟨ask_prompt "c" "q", 300⟩]) ∧
    ("a b" : String) ≠ "a  b" :=
  ⟨rfl, rfl, by decide⟩

/-- C1 (amended): with the index set and a nonempty retrieval, /ask
retrieves k=6 chunks for the stripped question, joins their page contents
with blank lines, builds the instruction-context-question prompt, calls
the generation model with max_new_tokens=300, and returns its output
after collapsing whitespace runs and stripping. -/
theorem C1_ask_pipeline (env : Env) (s : AppState) (vs : VectorStore)
    (data : AskRequest)
    (hvs : s.vectorstore = some vs) (hwf : s.gen.wf = true)
    (hdocs : (env.similarity_search vs.chunks (py_strip data.question) 6).isEmpty
      = false) :
    ∃ out g1,
      generate_response env.genEnv s.gen
        (ask_prompt
          (join_context (env.similarity_search vs.chunks (py_strip data.question) 6))
          (py_strip data.question)) 300 = some (out, g1) ∧
      ask_question env s data =
        some (.ok ⟨py_strip (re_sub_ws out)⟩, { s with gen := g1 },
          [⟨ask_prompt
            (join_context (env.similarity_search vs.chunks (py_strip data.question) 6))
            (py_strip data.question), 300⟩]) := by
  obtain ⟨out, g1, hg⟩ := generate_response_some env.genEnv s.gen _ 300 hwf
  refine ⟨out, g1, hg, ?_⟩
  simp only [ask_question, hvs, hdocs, hg]
  rfl

theorem C1_witness :
    sampleIndexedState.vectorstore = some ⟨[⟨"doc text"⟩]⟩ ∧
    sampleIndexedState.gen.wf = true ∧
    (sampleEnv.similarity_search (VectorStore.mk [⟨"doc text"⟩]).chunks
      (py_strip "q") 6).isEmpty = false ∧
    ∃ out g1,
      generate_response sampleEnv.genEnv sampleIndexedState.gen
        (ask_prompt
          (join_context (sampleEnv.similarity_search
            (VectorStore.mk [⟨"doc text"⟩]).chunks (py_strip "q") 6))
          (py_strip "q")) 300 = some (out, g1) ∧
      ask_question sampleEnv sampleIndexedState ⟨"q"⟩ =
        some (.ok ⟨py_strip (re_sub_ws out)⟩,
          { sampleIndexedState with gen := g1 },
          [⟨ask_prompt
            (join_context (sampleEnv.similarity_search
              (VectorStore.mk [⟨"doc text"⟩]).chunks (py_strip "q") 6))
            (py_strip "q"), 300⟩]) :=
  ⟨rfl, rfl, rfl,
   C1_ask_pipeline sampleEnv sampleIndexedState ⟨[⟨"doc text"⟩]⟩ ⟨"q"⟩ rfl rfl rfl⟩

/-- C4 (counterexample to the claim as stated): /ask with no index set
detects the failure condition and returns an HTTP 200 response whose body
carries the message, not an HTTP error code. -/
theorem C4_counterexample :
    ask_question sampleEnv initAppState ⟨"What is this about?"⟩ =
      some (.ok ⟨"Please upload a PDF first."⟩, initAppState, []) ∧
    (Except.ok (⟨"Please upload a PDF first."⟩ : AskResponse) :
      Except HTTPException AskResponse).isOk = true :=
  ⟨rfl, rfl⟩

/-- C4 (amended): the /upload failure conditions are surfaced as flat
HTTP 400 errors with a detail message, but the missing-index condition
detected by /ask and /summarize is returned as a 200 response carrying a
message in the body. -/
theorem C4_error_surfacing (env : Env) (s : AppState) (file : UploadFile)
    (data : AskRequest) :
    (py_endswith file.filename ".pdf" = false →
      upload_pdf env s file = (.error ⟨400, "Only PDF files are allowed."⟩, s)) ∧
    (py_endswith file.filename ".pdf" = true →
      (env.split_documents (env.pypdf_load file.content)).isEmpty = true →
      upload_pdf env s file = (.error ⟨400, "No text found in PDF."⟩, s)) ∧
    (s.vectorstore = none →
      ask_question env s data =
        some (.ok ⟨"Please upload a PDF first."⟩, s, []) ∧
      summarize_pdf env s =
        some (.ok ⟨"Please upload a PDF first."⟩, s, [])) := by
  refine ⟨?_, ?_, ?_⟩
  · intro h1
    simp [upload_pdf, h1]
  · intro h1 h2
    simp [upload_pdf, h1, h2]
  · intro hv
    exact ⟨by simp [ask_question, hv], by simp [summarize_pdf, hv]⟩

theorem C4_witness :
    py_endswith "notes.txt" ".pdf" = false ∧
    upload_pdf sampleEnv initAppState ⟨"notes.txt", "x"⟩ =
      (.error ⟨400, "Only PDF files are allowed."⟩, initAppState) ∧
    py_endswith "empty.pdf" ".pdf" = true ∧
    (sampleEnvNoChunks.split_documents
      (sampleEnvNoChunks.pypdf_load "x")).isEmpty = true ∧
    upload_pdf sampleEnvNoChunks initAppState ⟨"empty.pdf", "x"⟩ =
      (.error ⟨400, "No text found in PDF."⟩, initAppState) ∧
    initAppState.vectorstore = none ∧
    ask_question sampleEnv initAppState ⟨"q"⟩ =
      some (.ok ⟨"Please upload a PDF first."⟩, initAppState, []) ∧
    summarize_pdf sampleEnv initAppState =
      some (.ok ⟨"Please upload a PDF first."⟩, initAppState, []) := by
  have h1 := (C4_error_surfacing sampleEnv initAppState
    ⟨"notes.txt", "x"⟩ ⟨"q"⟩).1 (by decide)
  have h2 := (C4_error_surfacing sampleEnvNoChunks initAppState
    ⟨"empty.pdf", "x"⟩ ⟨"q"⟩).2.1 (by decide) (by decide)
  have h3 := (C4_error_surfacing sampleEnv initAppState
    ⟨"notes.txt", "x"⟩ ⟨"q"⟩).2.2 rfl
  exact ⟨by decide, h1, by decide, by decide, h2, rfl, h3.1, h3.2⟩

/-- C6: with the index set, /summarize retrieves k=8 chunks for the fixed
query, joins their page contents with blank lines, builds the fixed
summarization prompt, calls the generation model with max_new_tokens=350
and returns its output as the summary. -/
theorem C6_summarize_pipeline (env : Env) (s : AppState) (vs : VectorStore)
    (hvs : s.vectorstore = some vs) (hwf : s.gen.wf = true) :
    ∃ out g1,
      generate_response env.genEnv s.gen
        (summarize_prompt (join_context
          (env.similarity_search vs.chunks "Summarize the document" 8))) 350 =
        some (out, g1) ∧
      summarize_pdf env s =
        some (.ok ⟨out⟩, { s with gen := g1 },
          [⟨summarize_prompt (join_context
            (env.similarity_search vs.chunks "Summarize the document" 8)), 350⟩]) := by
  obtain ⟨out, g1, hg⟩ := generate_response_some env.genEnv s.gen _ 350 hwf
  exact ⟨out, g1, hg, by simp only [summarize_pdf, hvs, hg]⟩

theorem C6_witness :
    sampleIndexedState.vectorstore = some ⟨[⟨"doc text"⟩]⟩ ∧
    sampleIndexedState.gen.wf = true ∧
    ∃ out g1,
      generate_response sampleEnv.genEnv sampleIndexedState.gen
        (summarize_prompt (join_context
          (sampleEnv.similarity_search (VectorStore.mk [⟨"doc text"⟩]).chunks
            "Summarize the document" 8))) 350 = some (out, g1) ∧
      summarize_pdf sampleEnv sampleIndexedState =
        some (.ok ⟨out⟩, { sampleIndexedState with gen := g1 },
          [⟨summarize_prompt (join_context
            (sampleEnv.similarity_search (VectorStore.mk [⟨"doc text"⟩]).chunks
              "Summarize the document" 8)), 350⟩]) :=
  ⟨rfl, rfl,
   C6_summarize_pipeline sampleEnv sampleIndexedState ⟨[⟨"doc text"⟩]⟩ rfl rfl⟩

/-- C9: with the index set, an empty /ask retrieval yields exactly the
fixed not-found answer with no generation call and an unchanged state,
while /summarize performs no such check: on an empty retrieval it still
builds the prompt around an empty context and calls the generation
model. -/
theorem C9_empty_retrieval (env : Env) (s : AppState) (vs : VectorStore)
    (data : AskRequest)
    (hvs : s.vectorstore = some vs) (hwf : s.gen.wf = true)
    (ha : env.similarity_search vs.chunks (py_strip data.question) 6 = [])
    (hs8 : env.similarity_search vs.chunks "Summarize the document" 8 = []) :
    ask_question env s data = some (.ok ⟨"Not found in document."⟩, s, []) ∧
    ∃ out g1,
      generate_response env.genEnv s.gen
        (summarize_prompt (join_context [])) 350 = some (out, g1) ∧
      summarize_pdf env s =
        some (.ok ⟨out⟩, { s with gen := g1 },
          [⟨summarize_prompt (join_context []), 350⟩]) := by
  constructor
  · simp [ask_question, hvs, ha]
  · obtain ⟨out, g1, hg⟩ := generate_response_some env.genEnv s.gen
      (summarize_prompt (join_context [])) 350 hwf
    exact ⟨out, g1, hg, by simp only [summarize_pdf, hvs, hs8, hg]⟩

theorem C9_witness :
    sampleIndexedState.vectorstore = some ⟨[⟨"doc text"⟩]⟩ ∧
    sampleIndexedState.gen.wf = true ∧
    sampleEnvNoHits.similarity_search (VectorStore.mk [⟨"doc text"⟩]).chunks
      (py_strip "q") 6 = [] ∧
    sampleEnvNoHits.similarity_search (VectorStore.mk [⟨"doc text"⟩]).chunks
      "Summarize the document" 8 = [] ∧
    (ask_question sampleEnvNoHits sampleIndexedState ⟨"q"⟩ =
      some (.ok ⟨"Not found in document."⟩, sampleIndexedState, []) ∧
    ∃ out g1,
      generate_response sampleEnvNoHits.genEnv sampleIndexedState.gen
        (summarize_prompt (join_context [])) 350 = some (out, g1) ∧
      summarize_pdf sampleEnvNoHits sampleIndexedState =
        some (.ok ⟨out⟩, { sampleIndexedState with gen := g1 },
          [⟨summarize_prompt (join_context []), 350⟩])) :=
  ⟨rfl, rfl, rfl, rfl,
   C9_empty_retrieval sampleEnvNoHits sampleIndexedState ⟨[⟨"doc text"⟩]⟩ ⟨"q"⟩
     rfl rfl rfl rfl⟩

/-- C10: every /ask answer produced via generation is
whitespace-normalized: it has no two consecutive whitespace characters
and no leading or trailing whitespace. -/
theorem C10_answer_normalized (env : Env) (s : AppState) (data : AskRequest)
    (resp : AskResponse) (s1 : AppState) (calls : List GenCall)
    (h : ask_question env s data = some (.ok resp, s1, calls))
    (hcalls : calls ≠ []) :
    hasDoubleWs resp.answer.data = false ∧
    (∀ d, resp.answer.data.head? = some d → py_isspace d = false) ∧
    (∀ d, resp.answer.data.getLast? = some d → py_isspace d = false) := by
  simp only [ask_question] at h
  split at h
  · simp at h
    exact absurd h.2.2 hcalls
  · split at h
    · simp at h
      exact absurd h.2.2 hcalls
    · split at h
      · exact absurd h (by simp)
      · simp at h
        obtain ⟨h1, _, _⟩ := h
        cases resp with
        | mk ans =>
          simp only [AskResponse.mk.injEq] at h1
          rw [← h1]
          exact py_strip_re_sub_ws_normalized _

theorem C10_witness :
    ask_question doubleSpaceEnv doubleSpaceState ⟨"q"⟩ =
      some (.ok ⟨"a b"⟩,
        ⟨some ⟨[⟨"c"⟩]⟩, ⟨some doubleSpaceTokenizer, some sampleModel, false⟩⟩,
        [⟨ask_prompt "c" "q", 300⟩]) ∧
    ([(⟨ask_prompt "c" "q", 300⟩ : GenCall)] ≠ ([] : List GenCall)) ∧
    (hasDoubleWs (AskResponse.mk "a b").answer.data = false ∧
    (∀ d, (AskResponse.mk "a b").answer.data.head? = some d →
      py_isspace d = false) ∧
    (∀ d, (AskResponse.mk "a b").answer.data.getLast? = some d →
      py_isspace d = false)) :=
  ⟨rfl, by simp,
   C10_answer_normalized doubleSpaceEnv doubleSpaceState ⟨"q"⟩ ⟨"a b"⟩
     ⟨some ⟨[⟨"c"⟩]⟩, ⟨some doubleSpaceTokenizer, some sampleModel, false⟩⟩
     [⟨ask_prompt "c" "q", 300⟩] rfl (by simp)⟩

end PDFQABot
